import Mathlib

/-!
Verification of the toolkata-content registry and query layer.

This file gives a shallow embedding of the repository's data model and
query functions (the tool-entry registry in `pairings.ts`, and the
glossary / cheat-sheet row tables with their `getCategories`,
`filterByCategory` and search functions), and proves the specified
properties about them.

JavaScript string primitives are modelled explicitly:
`String.prototype.toLowerCase` / `toUpperCase` become character-wise maps
with Lean's ASCII `Char.toLower` / `Char.toUpper`, and
`String.prototype.includes` becomes a contiguous-sublist test on the
underlying character lists.
-/

/-- Model of the JavaScript `s.toLowerCase()` primitive: character-wise
ASCII lowering of the string. -/
def jsToLower (s : String) : String :=
  String.mk (s.data.map Char.toLower)

/-- Model of the JavaScript `s.toUpperCase()` primitive: character-wise
ASCII raising of the string. -/
def jsToUpper (s : String) : String :=
  String.mk (s.data.map Char.toUpper)

/-- Model of the JavaScript `s.includes(sub)` primitive: `sub` occurs as a
contiguous substring of `s`. -/
def jsIncludes (s sub : String) : Bool :=
  decide (sub.data <:+: s.data)

/-- Shared glossary row shape (`GlossaryEntry` in `glossary/types.ts`):
id, category, source command, target command, and a (possibly empty) note. -/
structure GlossaryRow where
  id : String
  category : String
  fromCommand : String
  toCommand : String
  note : String
deriving DecidableEq

/-- Shared cheat-sheet row shape (`CheatSheetEntry` in `glossary/types.ts`):
id, category, command, description, and an optional note. -/
structure CheatRow where
  id : String
  category : String
  command : String
  description : String
  note : Option String
deriving DecidableEq

namespace JJGit

/-- Glossary table `jjGitGlossary` for the jj / git comparison
(`glossary/jj-git` data module). -/
def jjGitGlossary : List GlossaryRow := [
  ⟨"basics-1", "BASICS", "git init", "jj git init", ""⟩,
  ⟨"basics-2", "BASICS", "git clone <url>", "jj git clone <url>", ""⟩,
  ⟨"basics-3", "BASICS", "git status", "jj status (jj st)", ""⟩,
  ⟨"basics-4", "BASICS", "git log", "jj log", ""⟩,
  ⟨"basics-5", "BASICS", "git diff", "jj diff", ""⟩,
  ⟨"basics-6", "BASICS", "git diff --staged", "jj diff --from @-", "No staging area in jj"⟩,
  ⟨"commits-1", "COMMITS", "git add . && git commit -m \"msg\"", "jj describe -m \"msg\"", "Changes auto-tracked"⟩,
  ⟨"commits-2", "COMMITS", "git commit --amend", "jj describe (on @)", "Edit working commit"⟩,
  ⟨"commits-3", "COMMITS", "(start new work)", "jj new", "Creates new working commit"⟩,
  ⟨"commits-4", "COMMITS", "git checkout <commit>", "jj new <commit>", "Create new commit at parent"⟩,
  ⟨"commits-5", "COMMITS", "git checkout <commit> (edit)", "jj edit <commit>", "Make commit the working copy"⟩,
  ⟨"history-1", "HISTORY", "git rebase -i (fixup)", "jj squash", "Squash into parent"⟩,
  ⟨"history-2", "HISTORY", "git rebase -i (split)", "jj split", "Interactive split"⟩,
  ⟨"history-3", "HISTORY", "git rebase <onto>", "jj rebase -d <onto>", "Descendants auto-rebase"⟩,
  ⟨"history-4", "HISTORY", "git cherry-pick <commit>", "jj new <parent>; jj squash --from <source>", "Two-step process"⟩,
  ⟨"history-5", "HISTORY", "git show <commit>", "jj show <commit>", ""⟩,
  ⟨"branches-1", "BRANCHES", "git branch <name>", "jj bookmark create <name>", "jj uses bookmarks"⟩,
  ⟨"branches-2", "BRANCHES", "git checkout -b <name>", "jj new; jj bookmark create <name>", "No current branch concept"⟩,
  ⟨"branches-3", "BRANCHES", "git branch -d <name>", "jj bookmark delete <name>", ""⟩,
  ⟨"branches-4", "BRANCHES", "git branch -m <old> <new>", "jj bookmark rename <old> <new>", ""⟩,
  ⟨"branches-5", "BRANCHES", "git branch", "jj bookmark list", ""⟩,
  ⟨"remotes-1", "REMOTES", "git fetch", "jj git fetch", ""⟩,
  ⟨"remotes-2", "REMOTES", "git push", "jj git push", "Requires bookmark"⟩,
  ⟨"remotes-3", "REMOTES", "git push -u origin <branch>", "jj git push -b <bookmark>", "jj requires bookmark name"⟩,
  ⟨"remotes-4", "REMOTES", "git pull", "jj git fetch; jj rebase -d <bookmark>@origin", "No pull, use fetch+rebase"⟩,
  ⟨"undo-1", "UNDO", "git reflog; git reset --hard", "jj undo", "Undo last operation"⟩,
  ⟨"undo-2", "UNDO", "(see operation history)", "jj op log", "View all operations"⟩,
  ⟨"undo-3", "UNDO", "git reset --hard <commit>", "jj op restore <operation>", "Restore to any operation"⟩,
  ⟨"undo-4", "UNDO", "git revert <commit>", "jj new <commit>; jj new; jj describe -m \"Revert\"", "Manual revert process"⟩,
  ⟨"conflicts-1", "CONFLICTS", "git status (see conflicts)", "jj status", "Conflicts stored in commit"⟩,
  ⟨"conflicts-2", "CONFLICTS", "git add <resolved>", "jj resolve", "Mark conflict resolved"⟩,
  ⟨"conflicts-3", "CONFLICTS", "(view conflicts)", "jj resolve --list", "List all conflicts"⟩,
  ⟨"advanced-1", "ADVANCED", "git log --graph --oneline", "jj log --graph", ""⟩,
  ⟨"advanced-2", "ADVANCED", "(find commits to rebase)", "jj log -r \'main..@\'", "Revset: commits since main"⟩,
  ⟨"advanced-3", "ADVANCED", "git describe", "jj describe", "Show full change id"⟩
]

/-- Canonical category sequence used by the jj / git table's
`getCategories` (its local `categoryOrder` array). -/
def categoryOrder : List String :=
  ["BASICS", "COMMITS", "HISTORY", "BRANCHES", "REMOTES", "UNDO", "CONFLICTS", "ADVANCED"]

/-- Embedding of `getCategories` from the jj / git glossary module: the
canonical order filtered to the categories present in the table (the
source builds a `Set` of the categories of all rows and keeps the canonical
entries belonging to it). -/
def getCategories : List String :=
  categoryOrder.filter (fun c => (jjGitGlossary.map (fun r => r.category)).contains c)

/-- Embedding of `filterByCategory` from the jj / git glossary module. -/
def filterByCategory (entries : List GlossaryRow) (category : String) : List GlossaryRow :=
  entries.filter (fun r => r.category == category)

/-- Embedding of `searchEntries` from the jj / git glossary module:
empty queries return the input; otherwise a row is kept when the lowered
query occurs in the lowered `fromCommand`, `toCommand` or `note`. -/
def searchEntries (entries : List GlossaryRow) (query : String) : List GlossaryRow :=
  if query = "" then entries
  else
    let lowerQuery := jsToLower query
    entries.filter (fun r =>
      jsIncludes (jsToLower r.fromCommand) lowerQuery ||
      jsIncludes (jsToLower r.toCommand) lowerQuery ||
      jsIncludes (jsToLower r.note) lowerQuery)

end JJGit

namespace Tmux

/-- Cheat-sheet table `tmuxCheatSheet` for the tmux single-tool tutorial
(`glossary/tmux.ts`). -/
def tmuxCheatSheet : List CheatRow := [
  ⟨"sessions-1", "SESSIONS", "tmux new -s <name>", "Create a new named session", some ""⟩,
  ⟨"sessions-2", "SESSIONS", "tmux ls", "List all sessions", some "Or: tmux list-sessions"⟩,
  ⟨"sessions-3", "SESSIONS", "tmux attach -t <name>", "Attach to an existing session", some "Or: tmux attach-session -t <name>"⟩,
  ⟨"sessions-4", "SESSIONS", "Ctrl+b d", "Detach from current session", some "Session continues running in background"⟩,
  ⟨"sessions-5", "SESSIONS", "tmux kill-session -t <name>", "Kill a specific session", some ""⟩,
  ⟨"sessions-6", "SESSIONS", "Ctrl+b $", "Rename current session", some "Prompt appears at bottom"⟩,
  ⟨"sessions-7", "SESSIONS", "Ctrl+b s", "Show all sessions (interactive)", some "Navigate and press Enter to attach"⟩,
  ⟨"windows-1", "WINDOWS", "Ctrl+b c", "Create a new window", some "Windows are numbered starting at 0"⟩,
  ⟨"windows-2", "WINDOWS", "Ctrl+b ,", "Rename current window", some ""⟩,
  ⟨"windows-3", "WINDOWS", "Ctrl+b n", "Switch to next window", some ""⟩,
  ⟨"windows-4", "WINDOWS", "Ctrl+b p", "Switch to previous window", some ""⟩,
  ⟨"windows-5", "WINDOWS", "Ctrl+b 0-9", "Switch to window by number", some ""⟩,
  ⟨"windows-6", "WINDOWS", "Ctrl+b w", "List all windows (interactive)", some ""⟩,
  ⟨"windows-7", "WINDOWS", "Ctrl+b &", "Kill current window", some "Confirms before killing"⟩,
  ⟨"windows-8", "WINDOWS", "Ctrl+b f", "Find window by name", some "Search prompt appears"⟩,
  ⟨"panes-1", "PANES", "Ctrl+b %", "Split pane vertically (left/right)", some ""⟩,
  ⟨"panes-2", "PANES", "Ctrl+b \"", "Split pane horizontally (top/bottom)", some ""⟩,
  ⟨"panes-3", "PANES", "Ctrl+b o", "Cycle to next pane", some ""⟩,
  ⟨"panes-4", "PANES", "Ctrl+b arrow keys", "Navigate to pane in direction", some "Up, Down, Left, Right"⟩,
  ⟨"panes-5", "PANES", "Ctrl+b q", "Show pane numbers (短暂显示)", some "Press number to jump to pane"⟩,
  ⟨"panes-6", "PANES", "Ctrl+b z", "Toggle zoom current pane", some "Expand to fill window, toggle back"⟩,
  ⟨"panes-7", "PANES", "Ctrl+b \x7b", "Move pane left (swap)", some ""⟩,
  ⟨"panes-8", "PANES", "Ctrl+b \x7d", "Move pane right (swap)", some ""⟩,
  ⟨"panes-9", "PANES", "Ctrl+b x", "Kill current pane", some "Confirms before killing"⟩,
  ⟨"panes-10", "PANES", "Ctrl+b Ctrl+arrow", "Resize pane in direction", some "Hold Ctrl and press arrow repeatedly"⟩,
  ⟨"nav-1", "NAVIGATION", "Ctrl+b [", "Enter scroll mode (copy mode)", some "Use arrows or vi keys to scroll"⟩,
  ⟨"nav-2", "NAVIGATION", "Ctrl+b page up/down", "Scroll terminal output", some "Without entering copy mode"⟩,
  ⟨"nav-3", "NAVIGATION", "q or Esc", "Exit copy mode", some ""⟩,
  ⟨"nav-4", "NAVIGATION", "Ctrl+b :", "Enter command mode", some "Type commands at prompt"⟩,
  ⟨"nav-5", "NAVIGATION", "Ctrl+b ?", "List all key bindings", some "Press q to exit list"⟩,
  ⟨"copy-1", "COPY_MODE", "Ctrl+b [", "Enter copy mode", some ""⟩,
  ⟨"copy-2", "COPY_MODE", "Space (start selection)", "Begin text selection", some "Starts copy mode selection"⟩,
  ⟨"copy-3", "COPY_MODE", "Enter (copy selection)", "Copy selected text", some "Also: Ctrl+w or y depending on mode"⟩,
  ⟨"copy-4", "COPY_MODE", "Ctrl+b ]", "Paste copied text", some "Paste buffer to current pane"⟩,
  ⟨"copy-5", "COPY_MODE", "/ (in copy mode)", "Search forward", some "Search prompt appears"⟩,
  ⟨"copy-6", "COPY_MODE", "? (in copy mode)", "Search backward", some ""⟩,
  ⟨"copy-7", "COPY_MODE", "n (in copy mode)", "Repeat search in same direction", some ""⟩,
  ⟨"copy-8", "COPY_MODE", "N (in copy mode)", "Repeat search in opposite direction", some ""⟩,
  ⟨"config-1", "CONFIG", "~/.tmux.conf", "Configuration file location", some "Create if doesn\'t exist"⟩,
  ⟨"config-2", "CONFIG", "set -g prefix C-a", "Change prefix key to Ctrl+a", some "Add to .tmux.conf, then: source ~/.tmux.conf"⟩,
  ⟨"config-3", "CONFIG", "set -g mouse on", "Enable mouse support", some "Click to select panes, drag to resize"⟩,
  ⟨"config-4", "CONFIG", "set -g status-bg colour", "Set status bar background color", some "Colours: black, red, green, yellow, blue, magenta, cyan, white"⟩,
  ⟨"config-5", "CONFIG", "bind r source-file ~/.tmux.conf \\; display \'Reloaded!\'", "Reload config with Ctrl+b r", some "Add to .tmux.conf for quick reload"⟩,
  ⟨"config-6", "CONFIG", "set -g base-index 1", "Start windows/panes at 1 instead of 0", some "Makes keyboard shortcuts more ergonomic"⟩,
  ⟨"config-7", "CONFIG", "set -g status-keys vi", "Use vi key bindings in command mode", some ""⟩,
  ⟨"config-8", "CONFIG", "setw -g mode-keys vi", "Use vi keys in copy mode", some "Default is emacs"⟩
]

/-- Canonical category sequence used by the tmux table's `getCategories`
(its local `categoryOrder` array). -/
def categoryOrder : List String :=
  ["SESSIONS", "WINDOWS", "PANES", "NAVIGATION", "COPY_MODE", "CONFIG"]

/-- Embedding of `getCategories` from `glossary/tmux.ts`. -/
def getCategories : List String :=
  categoryOrder.filter (fun c => (tmuxCheatSheet.map (fun r => r.category)).contains c)

/-- Embedding of `filterByCategory` from `glossary/tmux.ts`. -/
def filterByCategory (entries : List CheatRow) (category : String) : List CheatRow :=
  entries.filter (fun r => r.category == category)

/-- Embedding of `searchEntries` from `glossary/tmux.ts`: empty queries
return the input; otherwise a row is kept when the lowered query occurs in
the lowered `command`, `description`, or `note` — the note disjunct first
checks, as the source's truthiness guard does, that the note is present
and non-empty. -/
def searchEntries (entries : List CheatRow) (query : String) : List CheatRow :=
  if query = "" then entries
  else
    let lowerQuery := jsToLower query
    entries.filter (fun r =>
      jsIncludes (jsToLower r.command) lowerQuery ||
      jsIncludes (jsToLower r.description) lowerQuery ||
      (match r.note with
       | none => false
       | some n => !(n == "") && jsIncludes (jsToLower n) lowerQuery))

end Tmux

namespace ZioCats

/-- Glossary table `zioCatsGlossary` for the Cats Effect / ZIO comparison
(`glossary/zio-cats.ts`). -/
def zioCatsGlossary : List GlossaryRow := [
  ⟨"basics-1", "BASICS", "ZIO.succeed(a)", "IO.pure(a)", "Lift pure value into effect"⟩,
  ⟨"basics-2", "BASICS", "ZIO.fail(e)", "IO.raiseError(e)", "Lift error into effect"⟩,
  ⟨"basics-3", "BASICS", "ZIO.effect(thunk)", "IO.delay(thunk)", "Suspend side effect"⟩,
  ⟨"basics-4", "BASICS", "ZIO.attempt(thunk)", "IO.blocking(thunk)", "May throw, blocking"⟩,
  ⟨"basics-5", "BASICS", "UIO[A]", "IO[A]", "No error type (Nothing)"⟩,
  ⟨"basics-6", "BASICS", "ZIO.fromEither(e)", "IO.fromEither(e)", "From Either"⟩,
  ⟨"basics-7", "BASICS", "ZIO.fromOption(o)", "IO.fromOption(o)", "From Option"⟩,
  ⟨"errors-1", "ERRORS", "effect.catchAll(f)", "effect.handleErrorWith(f)", "Recover from error"⟩,
  ⟨"errors-2", "ERRORS", "effect.orElse(fallback)", "effect.handleErrorWith(_ => fallback)", "Fallback on error"⟩,
  ⟨"errors-3", "ERRORS", "effect.mapError(f)", "effect.adaptError(f)", "Transform error"⟩,
  ⟨"errors-4", "ERRORS", "effect.retry(schedule)", "effect.timeout + handleError", "Manual retries in CE"⟩,
  ⟨"errors-5", "ERRORS", "ZIO.collectAll(list)", "list.sequence", "Sequence effects"⟩,
  ⟨"deps-1", "DEPENDENCIES", "ZLayer.succeed(service)", "Resource.pure(service)", "Create dependency"⟩,
  ⟨"deps-2", "DEPENDENCIES", "effect.provideLayer(layer)", "Kleisli.run(effect)(service)", "Inject dependency"⟩,
  ⟨"deps-3", "DEPENDENCIES", "ZIO.service[A]", "IO.ask[A]", "Get from env (Kleisli)"⟩,
  ⟨"deps-4", "DEPENDENCIES", "layer1 ++ layer2", "Resource.forProductN", "Compose dependencies"⟩,
  ⟨"deps-5", "DEPENDENCIES", "ZManaged.acquireRelease", "Resource.make", "Resource lifecycle"⟩,
  ⟨"concurrency-1", "CONCURRENCY", "effect.fork", "effect.start", "Spawn fiber"⟩,
  ⟨"concurrency-2", "CONCURRENCY", "fiber.join", "fiber.join", "Await fiber result"⟩,
  ⟨"concurrency-3", "CONCURRENCY", "effect1.race(effect2)", "effect1.race(effect2)", "First to finish wins"⟩,
  ⟨"concurrency-4", "CONCURRENCY", "effect.timeout(duration)", "effect.timeout(duration)", "Cancel if too slow"⟩,
  ⟨"concurrency-5", "CONCURRENCY", "fiber.interrupt", "fiber.cancel", "Cancel fiber"⟩,
  ⟨"concurrency-6", "CONCURRENCY", "ZIO.supervised", "Resource with cancel", "Manual supervision"⟩,
  ⟨"concurrency-7", "CONCURRENCY", "ZIO.collectAllPar(list)", "list.parSequence", "Parallel execution"⟩,
  ⟨"streaming-1", "STREAMING", "ZStream(values)", "Stream(values)", "Create stream"⟩,
  ⟨"streaming-2", "STREAMING", "stream.map(f)", "stream.map(f)", "Transform elements"⟩,
  ⟨"streaming-3", "STREAMING", "stream.filter(p)", "stream.filter(p)", "Filter elements"⟩,
  ⟨"streaming-4", "STREAMING", "stream.runCollect", "stream.compile.toList", "Collect to list"⟩,
  ⟨"streaming-5", "STREAMING", "stream.mapZIO(f)", "stream.evalMap(f)", "Effectful map"⟩,
  ⟨"streaming-6", "STREAMING", "stream.merge(other)", "stream.merge(other)", "Merge streams"⟩,
  ⟨"streaming-7", "STREAMING", "ZStream.fromPath(path)", "Files[IO].readAll(path)", "File streaming (fs2)"⟩,
  ⟨"stm-1", "STM", "TRef.make(a)", "TRef.of[F](a)", "Create transactional reference"⟩,
  ⟨"stm-2", "STM", "STM.succeed(a)", "STM.pure(a)", "Pure STM value"⟩,
  ⟨"stm-3", "STM", "STM.retry", "STM.retry", "Retry transaction on TRef change"⟩,
  ⟨"stm-4", "STM", "transaction.commit", "transaction.commit[F]", "Commit STM to effect"⟩,
  ⟨"stm-5", "STM", "TMap.empty[K, V]", "TMap.empty[F, K, V]", "Transactional hash map"⟩,
  ⟨"stm-6", "STM", "TQueue.unbounded[A]", "TQueue.unbounded[F, A]", "Transactional queue"⟩,
  ⟨"config-1", "CONFIG", "ZIO.config[A]", "ConfigValue[F, A].load[F]", "Load configuration"⟩,
  ⟨"config-2", "CONFIG", "Config.string", "env(key).as[String]", "String configuration"⟩,
  ⟨"config-3", "CONFIG", "Config.int", "env(key).as[Int]", "Integer configuration"⟩,
  ⟨"config-4", "CONFIG", "ConfigProvider.envProvider", "env(key) default", "Environment variable source"⟩,
  ⟨"config-5", "CONFIG", "deriveConfig[A]", "parMapN(A)", "Automatic config derivation"⟩,
  ⟨"config-6", "CONFIG", "cfg.withDefault(value)", "ConfigValue.default(value)", "Default value for config"⟩,
  ⟨"config-7", "CONFIG", "cfg.validate(msg)(p)", "Custom ConfigDecoder", "Configuration validation"⟩,
  ⟨"http-1", "HTTP", "Http.collect[Request] \x7b case ... \x7d", "HttpRoutes.of[IO] \x7b case ... \x7d", "Define HTTP routes"⟩,
  ⟨"http-2", "HTTP", "Response.text(body)", "Ok(body)", "Text response"⟩,
  ⟨"http-3", "HTTP", "Client.request(url)", "client.expect[String](uri)", "HTTP GET request"⟩,
  ⟨"http-4", "HTTP", "Server.serve(app)", "BlazeServerBuilder[IO].serve", "Start HTTP server"⟩,
  ⟨"http-5", "HTTP", "Method.GET -> Root / \"path\"", "GET -> Root / \"path\"", "GET route pattern"⟩,
  ⟨"http-6", "HTTP", "req.body.asJson[A]", "req.as[A]", "Parse JSON body"⟩,
  ⟨"http-7", "HTTP", "Response(status, body = Body.fromStream)", "Ok(stream)", "Streaming response"⟩,
  ⟨"database-1", "DATABASE", "query(sql).as[A]", "sql\"...\".query[A]", "Execute SELECT query"⟩,
  ⟨"database-2", "DATABASE", "execute(sql).param(v)", "sql\"...$v\"", "Parameterized query"⟩,
  ⟨"database-3", "DATABASE", "query(...).transaction", "sql\"...\".transact(xa)", "Execute transaction"⟩,
  ⟨"database-4", "DATABASE", "ZConnectionPool.h2(url, user, pass)", "Transactor.fromDataSource", "Connection pool"⟩,
  ⟨"database-5", "DATABASE", "execute(sql).returning", ".update.withUniqueGeneratedKeys", "Insert and return ID"⟩,
  ⟨"database-6", "DATABASE", "sql ++ where", "Fragment ++ Fragment", "Query composition"⟩,
  ⟨"runtime-1", "RUNTIME", "object Main extends ZIOAppDefault", "object Main extends IOApp.Simple", "Application entry"⟩,
  ⟨"runtime-2", "RUNTIME", "override val run: ZIO[...]", "val run: IO[Throwable, Unit]", "Main effect"⟩,
  ⟨"runtime-3", "RUNTIME", "override val bootstrap", "IORuntime (implicit)", "Runtime config"⟩,
  ⟨"runtime-4", "RUNTIME", "effect.onInterrupt(f)", "effect.onCancel(f)", "Shutdown hook"⟩,
  ⟨"runtime-5", "RUNTIME", "ZIO.logInfo(msg)", "logger.info(msg) (log4cats)", "Logging"⟩,
  ⟨"interop-1", "INTEROP", "zio.toIO", "Use in CE via interop", "zio-interop-cats"⟩,
  ⟨"interop-2", "INTEROP", "zio.toResource", "Use in CE via interop", "Convert ZManaged"⟩,
  ⟨"interop-3", "INTEROP", "effects.parTupled", "effects.parTupled", "Via Cats Parallel"⟩,
  ⟨"interop-4", "INTEROP", "list.traverse(ZIO)", "list.traverse(IO)", "Cats syntax"⟩
]

/-- Canonical category sequence used by the Cats Effect / ZIO table's
`getCategories` (its local `categoryOrder` array). -/
def categoryOrder : List String :=
  ["BASICS", "ERRORS", "DEPENDENCIES", "CONCURRENCY", "STREAMING", "STM",
   "CONFIG", "HTTP", "DATABASE", "RUNTIME", "INTEROP"]

/-- Embedding of `getCategories` from `glossary/zio-cats.ts`. -/
def getCategories : List String :=
  categoryOrder.filter (fun c => (zioCatsGlossary.map (fun r => r.category)).contains c)

/-- Embedding of `filterByCategory` from `glossary/zio-cats.ts`. -/
def filterByCategory (entries : List GlossaryRow) (category : String) : List GlossaryRow :=
  entries.filter (fun r => r.category == category)

/-- Embedding of `searchEntries` from `glossary/zio-cats.ts` (identical in
shape to the jj / git variant). -/
def searchEntries (entries : List GlossaryRow) (query : String) : List GlossaryRow :=
  if query = "" then entries
  else
    let lowerQuery := jsToLower query
    entries.filter (fun r =>
      jsIncludes (jsToLower r.fromCommand) lowerQuery ||
      jsIncludes (jsToLower r.toCommand) lowerQuery ||
      jsIncludes (jsToLower r.note) lowerQuery)

end ZioCats

namespace EffectZio

/-- Glossary table `effectZioGlossary` for the Effect / ZIO comparison
(`glossary/effect-zio.ts`). -/
def effectZioGlossary : List GlossaryRow := [
  ⟨"core-1", "CORE", "Effect<A, E, R>", "ZIO[-R, +E, +A]", "Type parameter order is different: Effect puts Success (A) first, while ZIO puts Environment (R) first"⟩,
  ⟨"core-2", "CORE", "Effect.succeed(x)", "ZIO.succeed(x)", "Creates a successful effect with the given value"⟩,
  ⟨"core-3", "CORE", "Effect.fail(e)", "ZIO.fail(e)", "Creates a failed effect with the given error"⟩,
  ⟨"core-4", "CORE", "Effect.try(() => ...)", "ZIO.attempt(...)", "Wraps a synchronous operation that may throw"⟩,
  ⟨"core-5", "CORE", "Effect.sync(() => ...)", "ZIO.suspend(...)", "Defers evaluation of a thunk (side-effecting code)"⟩,
  ⟨"errors-1", "ERRORS", "Effect.catchAll(fa, f)", "fa.catchAll(f)", "Handle all errors with a recovery function"⟩,
  ⟨"errors-2", "ERRORS", "Effect.orElse(fa, () => fb)", "fa.orElse(fb)", "Run fallback effect if first fails"⟩,
  ⟨"errors-3", "ERRORS", "Effect.mapError(fa, f)", "fa.mapError(f)", "Transform the error type"⟩,
  ⟨"errors-4", "ERRORS", "Effect.either(fa)", "fa.either", "Convert Effect<A, E, R> to Effect<Either<E, A>, never, R>"⟩,
  ⟨"errors-5", "ERRORS", "Effect.die(defect)", "ZIO.die(defect)", "Create a fatal defect (not in the typed error channel)"⟩,
  ⟨"composition-1", "COMPOSITION", "Effect.gen(function* () \x7b ... \x7d)", "for \x7b ... \x7d yield ...", "Sequential composition with generators. Use yield* to unwrap effects"⟩,
  ⟨"composition-2", "COMPOSITION", "yield* effect", "<- effect (in for-comprehension)", "Bind/unwrap an effect in a generator"⟩,
  ⟨"composition-3", "COMPOSITION", "Effect.map(fa, f)", "fa.map(f)", "Transform the success value"⟩,
  ⟨"composition-4", "COMPOSITION", "Effect.flatMap(fa, f)", "fa.flatMap(f)", "Chain effects (bind)"⟩,
  ⟨"services-1", "SERVICES", "class Tag extends Context.Tag", "ZIO.service[T]", "Define service tags with Context.Tag class pattern"⟩,
  ⟨"services-2", "SERVICES", "yield* ServiceTag", "ZIO.service[ServiceType]", "Access a service in Effect.gen"⟩,
  ⟨"services-3", "SERVICES", "Layer.succeed(Tag, impl)", "ZLayer.succeed(impl)", "Create a layer from a service implementation"⟩,
  ⟨"services-4", "SERVICES", "Layer.effect(Tag, effect)", "ZLayer.fromEffect(...)", "Create a layer from an effect"⟩,
  ⟨"layers-1", "LAYERS", "Layer.provide(inner, outer)", "outer >>> inner", "Horizontal layer composition (dependencies)"⟩,
  ⟨"layers-2", "LAYERS", "Layer.merge(layer1, layer2)", "layer1 ++ layer2", "Vertical layer composition (merge independent layers)"⟩,
  ⟨"layers-3", "LAYERS", "Effect.provide(effect, layer)", "effect.provideLayer(layer)", "Provide layers to an effect"⟩,
  ⟨"layers-4", "LAYERS", "Layer.scoped(Tag, effect)", "ZLayer.scoped(...)", "Create a layer with scoped resource management"⟩,
  ⟨"concurrency-1", "CONCURRENCY", "Effect.fork(fa)", "fa.fork", "Run effect concurrently in a fiber"⟩,
  ⟨"concurrency-2", "CONCURRENCY", "Fiber.join(fiber)", "fiber.join", "Wait for fiber to complete and get result"⟩,
  ⟨"concurrency-3", "CONCURRENCY", "Fiber.interrupt(fiber)", "fiber.interrupt", "Cancel a running fiber"⟩,
  ⟨"concurrency-4", "CONCURRENCY", "Effect.all(effects, \x7b concurrency \x7d)", "ZIO.collectAllPar(effects)", "Run effects in parallel with concurrency control"⟩,
  ⟨"concurrency-5", "CONCURRENCY", "Effect.race(fa, fb)", "fa.race(fb)", "Run both effects, return result of first to succeed"⟩,
  ⟨"concurrency-6", "CONCURRENCY", "Ref.make(initial)", "Ref.make(initial)", "Create atomic reference for concurrent state"⟩,
  ⟨"concurrency-7", "CONCURRENCY", "Ref.get/set/update(ref, ...)", "ref.get/set/update", "Atomic operations on Ref"⟩,
  ⟨"streaming-1", "STREAMING", "Stream<A, E, R>", "ZStream[-R, +E, +O]", "Stream type with Output (A) first, unlike ZStream"⟩,
  ⟨"streaming-2", "STREAMING", "Stream.succeed(...)", "ZStream(...)", "Create stream from values"⟩,
  ⟨"streaming-3", "STREAMING", "Stream.map/flatMap/filter(stream, f)", "stream.map/flatMap/filter", "Stream transformations use pipe syntax"⟩,
  ⟨"streaming-4", "STREAMING", "Stream.runCollect(stream)", "stream.runCollect", "Collect stream elements into array"⟩,
  ⟨"streaming-5", "STREAMING", "Sink.count/last/...", "ZSink.count/last/...", "Aggregators for stream consumption"⟩,
  ⟨"schema-1", "SCHEMA", "Schema<A>", "Schema[A]", "Runtime type validation and transformation"⟩,
  ⟨"schema-2", "SCHEMA", "Schema.decodeUnknown(schema)(data)", "schema.decode(data)", "Parse/validate unknown data into typed value"⟩,
  ⟨"schema-3", "SCHEMA", "Schema.optional(Schema.String)", "Option[String]", "Optional/nullable field in schema"⟩,
  ⟨"http-1", "HTTP", "HttpClient service", "Client.service (ZIO HTTP)", "HTTP client service from @effect/platform"⟩,
  ⟨"http-2", "HTTP", "client.get/post(url, options)", "Client.get/post(url, ...)", "HTTP methods return HttpClientResponse effect"⟩,
  ⟨"http-3", "HTTP", "response.json/text", "response.body.asString", "Get response body as parsed JSON or text"⟩,
  ⟨"sql-1", "SQL", "SqlClient service", "JdbcService (ZIO JDBC)", "Database client service from @effect/sql"⟩,
  ⟨"sql-2", "SQL", "sql`SELECT ... WHERE id = $\x7bid\x7d`", "sql\"SELECT ... WHERE id = $id\"", "Template literal SQL with automatic parameterization"⟩,
  ⟨"sql-3", "SQL", "SqlClient.transaction(effect)", "jdbc.transaction \x7b ... \x7d", "Run effects in a database transaction"⟩
]

/-- Embedding of `searchEffectZioGlossary` from `glossary/effect-zio.ts`:
unlike the other tables' search functions it closes over its fixed table,
has no empty-query guard, and also tests the `category` field. -/
def searchEffectZioGlossary (query : String) : List GlossaryRow :=
  let lowerQuery := jsToLower query
  effectZioGlossary.filter (fun r =>
    jsIncludes (jsToLower r.fromCommand) lowerQuery ||
    jsIncludes (jsToLower r.toCommand) lowerQuery ||
    jsIncludes (jsToLower r.category) lowerQuery ||
    jsIncludes (jsToLower r.note) lowerQuery)

end EffectZio

/-- Tool descriptor used in registry entries (`pairings.ts`): display name,
description, and optional color / icon hints. -/
structure ToolDesc where
  name : String
  description : String
  color : Option String
  icon : Option String
deriving DecidableEq

/-- Comparison-mode registry entry (`ToolPairing` in `pairings.ts`); the
source's `from` / `to` fields are `fromTool` / `toTool` here because `from`
is a Lean keyword.  The source's `mode: "pairing"` discriminator becomes
the constructor tag of `TutorialEntry` below. -/
structure PairingData where
  slug : String
  fromTool : ToolDesc
  toTool : ToolDesc
  category : String
  steps : Nat
  estimatedTime : String
  status : String
  toUrl : Option String
  tags : List String
  language : Option String
deriving DecidableEq

/-- Single-tool registry entry (`SingleToolEntry` in `pairings.ts`). -/
structure SingleToolData where
  slug : String
  tool : ToolDesc
  category : String
  steps : Nat
  estimatedTime : String
  status : String
  toolUrl : Option String
  tags : List String
  language : Option String
deriving DecidableEq

/-- Union of the two registry entry shapes (`TutorialEntry` in
`pairings.ts`); the constructor plays the role of the `mode`
discriminator. -/
inductive TutorialEntry where
  | pairing (p : PairingData)
  | tutorial (t : SingleToolData)
deriving DecidableEq

/-- Slug of an entry, regardless of variant. -/
def TutorialEntry.slug : TutorialEntry → String
  | .pairing p => p.slug
  | .tutorial t => t.slug

/-- Category of an entry, regardless of variant. -/
def TutorialEntry.category : TutorialEntry → String
  | .pairing p => p.category
  | .tutorial t => t.category

/-- Step count of an entry, regardless of variant. -/
def TutorialEntry.steps : TutorialEntry → Nat
  | .pairing p => p.steps
  | .tutorial t => t.steps

/-- Status of an entry, regardless of variant. -/
def TutorialEntry.status : TutorialEntry → String
  | .pairing p => p.status
  | .tutorial t => t.status

/-- Embedding of the `isPairing` type guard (`entry.mode === "pairing"`). -/
def isPairing : TutorialEntry → Bool
  | .pairing _ => true
  | .tutorial _ => false

/-- Registry entry for the zio-cats pairing. -/
def entryZioCats : TutorialEntry :=
  .pairing ⟨"zio-cats",
    ⟨"Cats Effect", "Cats Effect 3", some "#8b5cf6", some "scala"⟩,
    ⟨"ZIO", "Learn ZIO 2.0", some "#0066ff", some "scala"⟩,
    "Frameworks & Libraries", 15, "~70 min", "published",
    some "https://zio.dev/", ["scala", "zio", "cats-effect", "functional"], some "scala"⟩

/-- Registry entry for the jj-git pairing. -/
def entryJjGit : TutorialEntry :=
  .pairing ⟨"jj-git",
    ⟨"git", "Distributed VCS", some "#f05032", some "git-branch"⟩,
    ⟨"jj", "jj for git experts", some "#39d96c", some "arrows-clockwise"⟩,
    "Version Control", 12, "~40 min", "published",
    some "https://github.com/jj-vcs/jj", ["git", "jj", "vcs", "version-control"], some "shell"⟩

/-- Registry entry for the effect-zio pairing. -/
def entryEffectZio : TutorialEntry :=
  .pairing ⟨"effect-zio",
    ⟨"ZIO", "ZIO 2", some "#DC322F", some "scala"⟩,
    ⟨"Effect", "Effect.TS for ZIO developers", some "#3178C6", some "typescript"⟩,
    "Frameworks & Libraries", 15, "~75 min", "published",
    some "https://effect.website", ["typescript", "effect", "zio", "scala", "functional"], some "typescript"⟩

/-- Registry entry for the tmux single-tool tutorial. -/
def entryTmux : TutorialEntry :=
  .tutorial ⟨"tmux",
    ⟨"tmux", "Terminal multiplexer", some "#1bbf4e", some "terminal"⟩,
    "Other", 8, "~30 min", "published",
    some "https://github.com/tmux/tmux", ["tmux", "terminal", "multiplexer", "shell"], some "shell"⟩

/-- Registry `toolEntries` from `pairings.ts`, in declaration order. -/
def toolEntries : List TutorialEntry :=
  [entryZioCats, entryJjGit, entryEffectZio, entryTmux]

/-- Embedding of `getEntry`: first registry entry with the given slug
(`toolEntries.find(...) ?? null`). -/
def getEntry (slug : String) : Option TutorialEntry :=
  toolEntries.find? (fun e => e.slug == slug)

/-- Embedding of the legacy `getPairing`: the `getEntry` result when it is
a comparison entry, not-found otherwise. -/
def getPairing (slug : String) : Option TutorialEntry :=
  match getEntry slug with
  | some e => if isPairing e then some e else none
  | none => none

/-- Embedding of `getPublishedEntries`. -/
def getPublishedEntries : List TutorialEntry :=
  toolEntries.filter (fun e => e.status == "published")

/-- Embedding of the legacy `getPublishedPairings` (the source's cast to
`ToolPairing[]` has no runtime content and is dropped). -/
def getPublishedPairings : List TutorialEntry :=
  toolEntries.filter (fun e => e.status == "published" && isPairing e)

/-- One step of the grouping loop shared by `getEntriesByCategory` and
`getPairingsByCategory`: append the entry to its category's group,
creating the group at the end (JavaScript object key insertion order) when
the category has not been seen yet. -/
def insertGrouped (acc : List (String × List TutorialEntry)) (e : TutorialEntry) :
    List (String × List TutorialEntry) :=
  if acc.any (fun g => g.1 == e.category) then
    acc.map (fun g => if g.1 == e.category then (g.1, g.2 ++ [e]) else g)
  else
    acc ++ [(e.category, [e])]

/-- Embedding of `getEntriesByCategory`: the grouping loop over the whole
registry, producing category keys in first-seen order. -/
def getEntriesByCategory : List (String × List TutorialEntry) :=
  toolEntries.foldl insertGrouped []

/-- Embedding of the legacy `getPairingsByCategory`: same loop, but
entries that are not comparisons are skipped (`continue`). -/
def getPairingsByCategory : List (String × List TutorialEntry) :=
  toolEntries.foldl (fun acc e => if !(isPairing e) then acc else insertGrouped acc e) []

/-- Embedding of `isValidEntrySlug`. -/
def isValidEntrySlug (slug : String) : Bool :=
  toolEntries.any (fun e => e.slug == slug)

/-- Embedding of the legacy `isValidPairingSlug`. -/
def isValidPairingSlug (slug : String) : Bool :=
  toolEntries.any (fun e => e.slug == slug && isPairing e)

/-! ## General lemmas about the embedded primitives -/

/-- Unfolding of the substring test into the contiguous-sublist relation. -/
theorem jsIncludes_iff {s sub : String} :
    jsIncludes s sub = true ↔ sub.data <:+: s.data := by
  simp [jsIncludes]

/-- ASCII case mapping: raising then lowering a character agrees with
lowering it directly. -/
theorem char_toLower_toUpper (c : Char) : c.toUpper.toLower = c.toLower := by
  by_cases h : 97 ≤ c.toNat ∧ c.toNat ≤ 122
  · have hvalid : (c.toNat - 32).isValidChar := Or.inl (by
      show c.toNat - 32 < 0xd800
      have := c.val.toNat_lt
      omega)
    have hup : c.toUpper = Char.ofNat (c.toNat - 32) := by
      show (if c.toNat ≥ 97 ∧ c.toNat ≤ 122 then Char.ofNat (c.toNat - 32) else c) =
        Char.ofNat (c.toNat - 32)
      exact if_pos h
    have htn : (Char.ofNat (c.toNat - 32)).toNat = c.toNat - 32 := by
      rw [Char.ofNat, dif_pos hvalid]
      rfl
    have hlow : (Char.ofNat (c.toNat - 32)).toLower = Char.ofNat (c.toNat - 32 + 32) := by
      show (if (Char.ofNat (c.toNat - 32)).toNat ≥ 65 ∧ (Char.ofNat (c.toNat - 32)).toNat ≤ 90
            then Char.ofNat ((Char.ofNat (c.toNat - 32)).toNat + 32)
            else Char.ofNat (c.toNat - 32)) = Char.ofNat (c.toNat - 32 + 32)
      rw [htn, if_pos (by omega)]
    have hc : c.toNat - 32 + 32 = c.toNat := by omega
    have hrhs : c.toLower = c := by
      show (if c.toNat ≥ 65 ∧ c.toNat ≤ 90 then Char.ofNat (c.toNat + 32) else c) = c
      exact if_neg (by omega)
    rw [hup, hlow, hc, Char.ofNat_toNat, hrhs]
  · have hup : c.toUpper = c := by
      show (if c.toNat ≥ 97 ∧ c.toNat ≤ 122 then Char.ofNat (c.toNat - 32) else c) = c
      exact if_neg h
    rw [hup]

/-- Raising then lowering a string agrees with lowering it directly. -/
theorem jsToLower_jsToUpper (s : String) : jsToLower (jsToUpper s) = jsToLower s := by
  show String.mk ((s.data.map Char.toUpper).map Char.toLower) = String.mk (s.data.map Char.toLower)
  rw [List.map_map]
  exact congrArg String.mk
    (List.map_congr_left (fun c _ => char_toLower_toUpper c))

/-- Raising a string preserves (non-)emptiness. -/
theorem jsToUpper_eq_empty_iff (s : String) : jsToUpper s = "" ↔ s = "" := by
  constructor
  · intro h
    have hd : s.data.map Char.toUpper = [] := congrArg String.data h
    cases s with
    | mk data =>
      cases data with
      | nil => rfl
      | cons c cs => simp at hd
  · intro h
    rw [h]
    rfl

/-- With no duplicate slugs, an existence test combining a slug equality
with another predicate is the same as running the predicate on the unique
entry that lookup by slug finds. -/
theorem any_slug_and_iff_find (l : List TutorialEntry) (p : TutorialEntry → Bool) (s : String)
    (hnd : (l.map TutorialEntry.slug).Nodup) :
    l.any (fun e => e.slug == s && p e) = true ↔
      ∃ e, l.find? (fun e => e.slug == s) = some e ∧ p e = true := by
  induction l with
  | nil => simp
  | cons a tl ih =>
    have hnd' : (tl.map TutorialEntry.slug).Nodup := (List.nodup_cons.mp hnd).2
    have hnotin : a.slug ∉ tl.map TutorialEntry.slug := (List.nodup_cons.mp hnd).1
    by_cases hs : a.slug = s
    · have hfind : (a :: tl).find? (fun e => e.slug == s) = some a := by
        rw [List.find?_cons_of_pos]
        simp [hs]
      have htl : tl.any (fun e => e.slug == s && p e) = false := by
        rw [List.any_eq_false]
        intro e he
        have : e.slug ≠ s := by
          intro hes
          exact hnotin (hs ▸ hes ▸ List.mem_map_of_mem TutorialEntry.slug he)
        simp [this]
      constructor
      · intro hany
        refine ⟨a, hfind, ?_⟩
        simp only [List.any_cons, htl, Bool.or_false, hs] at hany
        simpa using hany
      · rintro ⟨e, hfe, hpe⟩
        rw [hfind] at hfe
        cases hfe
        simp [List.any_cons, hs, hpe]
    · have hfind : (a :: tl).find? (fun e => e.slug == s) = tl.find? (fun e => e.slug == s) := by
        rw [List.find?_cons_of_neg]
        simp [hs]
      rw [hfind] at *
      have hhead : (a.slug == s && p a) = false := by simp [hs]
      simp only [List.any_cons, hhead, Bool.false_or]
      exact ih hnd'

/-! ## Claims -/

/-- C3: for every slug present in the registry, `getEntry` returns an
entry whose slug is that slug; for every other string it returns
not-found; and `getEntry "jj-git"` is a Version Control entry with 12
steps and status published. -/
theorem getEntry_lookup_spec :
    (∀ s e, getEntry s = some e → e.slug = s) ∧
    (∀ s, getEntry s = none ↔ ∀ e ∈ toolEntries, e.slug ≠ s) ∧
    (∃ e, getEntry "jj-git" = some e ∧ e.category = "Version Control" ∧
      e.steps = 12 ∧ e.status = "published") := by
  refine ⟨?_, ?_, ?_⟩
  · intro s e h
    have := List.find?_some h
    simpa using this
  · intro s
    simp [getEntry, List.find?_eq_none]
  · exact ⟨entryJjGit, by decide, rfl, rfl, rfl⟩

/-- Witness for C3 at the concrete slug `"jj-git"`. -/
theorem getEntry_lookup_spec_witness : entryJjGit.slug = "jj-git" :=
  getEntry_lookup_spec.1 "jj-git" entryJjGit (by decide)

/-- C7: the published entries are a subsequence of the registry holding
exactly the entries with status `"published"`. -/
theorem getPublishedEntries_spec :
    getPublishedEntries.Sublist toolEntries ∧
    ∀ e, e ∈ getPublishedEntries ↔ e ∈ toolEntries ∧ e.status = "published" := by
  refine ⟨List.filter_sublist _, ?_⟩
  intro e
  simp [getPublishedEntries, List.mem_filter]

/-- C9: slug validity agrees with lookup success. -/
theorem isValidEntrySlug_spec :
    ∀ s, isValidEntrySlug s = true ↔ (getEntry s).isSome = true := by
  intro s
  simp only [isValidEntrySlug, getEntry, List.any_eq_true, List.find?_isSome]

/-- Filtering a canonical order by membership in the data keeps exactly
the members of the data whenever the data only uses canonical labels. -/
theorem mem_filter_contains (order data : List String)
    (hsub : ∀ x ∈ data, x ∈ order) (c : String) :
    c ∈ order.filter (fun x => data.contains x) ↔ c ∈ data := by
  simp only [List.mem_filter]
  constructor
  · rintro ⟨-, h⟩
    simpa using h
  · intro h
    exact ⟨hsub c h, by simpa using h⟩

/-- C4: each table's `getCategories` lists exactly the categories present
in its rows, without duplicates, in the order of that table's canonical
sequence; on the ZIO/Cats table the result is the full canonical
sequence. -/
theorem getCategories_spec :
    (∀ c, c ∈ JJGit.getCategories ↔
      c ∈ JJGit.jjGitGlossary.map (fun r => r.category)) ∧
    JJGit.getCategories.Nodup ∧
    JJGit.getCategories.Sublist JJGit.categoryOrder ∧
    (∀ c, c ∈ Tmux.getCategories ↔
      c ∈ Tmux.tmuxCheatSheet.map (fun r => r.category)) ∧
    Tmux.getCategories.Nodup ∧
    Tmux.getCategories.Sublist Tmux.categoryOrder ∧
    (∀ c, c ∈ ZioCats.getCategories ↔
      c ∈ ZioCats.zioCatsGlossary.map (fun r => r.category)) ∧
    ZioCats.getCategories.Nodup ∧
    ZioCats.getCategories.Sublist ZioCats.categoryOrder ∧
    ZioCats.getCategories = ["BASICS", "ERRORS", "DEPENDENCIES", "CONCURRENCY",
      "STREAMING", "STM", "CONFIG", "HTTP", "DATABASE", "RUNTIME", "INTEROP"] := by
  refine ⟨mem_filter_contains _ _ (by decide), by decide, List.filter_sublist _,
    mem_filter_contains _ _ (by decide), by decide, List.filter_sublist _,
    mem_filter_contains _ _ (by decide), by decide, List.filter_sublist _, by decide⟩

/-- C5: `filterByCategory` returns the order-preserving subsequence of
rows with the requested category, the empty sequence when no row has it,
and on the tmux table with `"SESSIONS"` exactly the seven session rows in
table order. -/
theorem filterByCategory_spec :
    (∀ entries c, (JJGit.filterByCategory entries c).Sublist entries ∧
      ∀ r, r ∈ JJGit.filterByCategory entries c ↔ r ∈ entries ∧ r.category = c) ∧
    (∀ entries c, (Tmux.filterByCategory entries c).Sublist entries ∧
      ∀ r, r ∈ Tmux.filterByCategory entries c ↔ r ∈ entries ∧ r.category = c) ∧
    (∀ entries c, (∀ r ∈ entries, r.category ≠ c) →
      Tmux.filterByCategory entries c = []) ∧
    (Tmux.filterByCategory Tmux.tmuxCheatSheet "SESSIONS").map (fun r => r.id) =
      ["sessions-1", "sessions-2", "sessions-3", "sessions-4",
       "sessions-5", "sessions-6", "sessions-7"] ∧
    (Tmux.filterByCategory Tmux.tmuxCheatSheet "SESSIONS").Sublist Tmux.tmuxCheatSheet := by
  refine ⟨?_, ?_, ?_, by decide, List.filter_sublist _⟩
  · intro entries c
    exact ⟨List.filter_sublist _, by intro r; simp [JJGit.filterByCategory]⟩
  · intro entries c
    exact ⟨List.filter_sublist _, by intro r; simp [Tmux.filterByCategory]⟩
  · intro entries c h
    rw [Tmux.filterByCategory, List.filter_eq_nil_iff]
    intro r hr
    simp [h r hr]

/-- Witness for C5: a category used by no row yields the empty sequence. -/
theorem filterByCategory_spec_witness :
    Tmux.filterByCategory
      [⟨"sessions-1", "SESSIONS", "tmux new -s <name>",
        "Create a new named session", some ""⟩] "CONFIG" = [] :=
  filterByCategory_spec.2.2.1 _ "CONFIG" (by decide)

/-- C6: `getEntriesByCategory` groups the whole registry by category with
keys in first-seen order: concretely three groups, whose concatenation is
a permutation of the registry, with distinct keys, each group an
order-preserving subsequence of the registry all of whose members carry
the group's category. -/
theorem getEntriesByCategory_spec :
    getEntriesByCategory =
      [("Frameworks & Libraries", [entryZioCats, entryEffectZio]),
       ("Version Control", [entryJjGit]),
       ("Other", [entryTmux])] ∧
    List.Perm (getEntriesByCategory.flatMap (fun g => g.2)) toolEntries ∧
    toolEntries.Nodup ∧
    (getEntriesByCategory.map (fun g => g.1)).Nodup ∧
    ∀ g ∈ getEntriesByCategory, g.2.Sublist toolEntries ∧
      ∀ e ∈ g.2, e.category = g.1 := by
  refine ⟨by decide, by decide, by decide, by decide, by decide⟩

/-- Witness for C6 at the concrete Version Control group. -/
theorem getEntriesByCategory_spec_witness : [entryJjGit].Sublist toolEntries :=
  (getEntriesByCategory_spec.2.2.2.2 ("Version Control", [entryJjGit]) (by decide)).1

/-- C2 (counterexample): grouping pairings by category is NOT the
registry-wide grouping with each group filtered to comparisons — the
per-group filtering keeps an empty `"Other"` group (its only entry, the
tmux tutorial, is not a comparison), while `getPairingsByCategory` never
creates an `"Other"` key at all. -/
theorem pairingsByCategory_projection_counterexample :
    getPairingsByCategory ≠
      getEntriesByCategory.map (fun g => (g.1, g.2.filter isPairing)) ∧
    ("Other", ([] : List TutorialEntry)) ∈
      getEntriesByCategory.map (fun g => (g.1, g.2.filter isPairing)) ∧
    (getPairingsByCategory.map (fun g => g.1)).contains "Other" = false := by
  refine ⟨by decide, by decide, by decide⟩

/-- C2 (amended): each legacy adapter operation is the comparison-only
projection of the registry-wide one — `getPairing` agrees with `getEntry`
restricted to comparisons, `getPublishedPairings` is `getPublishedEntries`
filtered to comparisons, `isValidPairingSlug` holds exactly when lookup
finds a comparison, and `getPairingsByCategory` is `getEntriesByCategory`
with each group filtered to comparisons and the groups thereby left empty
removed. -/
theorem legacyAdapter_projection_spec :
    (∀ s e, getPairing s = some e ↔ getEntry s = some e ∧ isPairing e = true) ∧
    getPublishedPairings = getPublishedEntries.filter isPairing ∧
    getPairingsByCategory =
      (getEntriesByCategory.map (fun g => (g.1, g.2.filter isPairing))).filter
        (fun g => !g.2.isEmpty) ∧
    (∀ s, isValidPairingSlug s = true ↔
      ∃ e, getEntry s = some e ∧ isPairing e = true) := by
  refine ⟨?_, ?_, by decide, ?_⟩
  · intro s e
    cases h : getEntry s with
    | none => simp [getPairing, h]
    | some e' =>
      by_cases hp : isPairing e'
      · simp only [getPairing, h, if_pos hp, Option.some.injEq]
        constructor
        · intro he
          exact ⟨he, he ▸ hp⟩
        · rintro ⟨he, -⟩
          exact he
      · simp only [getPairing, h, if_neg hp, Option.some.injEq]
        constructor
        · intro he
          cases he
        · rintro ⟨he, hpe⟩
          cases he
          exact absurd hpe hp
  · rw [getPublishedPairings, getPublishedEntries, List.filter_filter]
    exact List.filter_congr (fun e _ => Bool.and_comm _ _)
  · intro s
    exact any_slug_and_iff_find toolEntries isPairing s (by decide)

/-- Truthiness guard on the optional note field, as a proposition: the
note is present, non-empty, and contains the lowered query. -/
theorem note_pred_iff (note : Option String) (lq : String) :
    (match note with
      | none => false
      | some n => !(n == "") && jsIncludes (jsToLower n) lq) = true ↔
      ∃ n, note = some n ∧ n ≠ "" ∧ lq.data <:+: (jsToLower n).data := by
  cases note with
  | none => simp
  | some n => simp [jsIncludes]

set_option maxRecDepth 100000 in
/-- C1 (counterexample): on the effect-zio table, searching for `"core"`
returns the row `core-1` even though none of its textual fields
(`fromCommand`, `toCommand`, `note`) contains `"core"` case-insensitively —
the match comes from the `category` field. -/
theorem searchEntries_fields_counterexample :
    ((EffectZio.searchEffectZioGlossary "core").map (fun r => r.id)).contains
      "core-1" = true ∧
    ((EffectZio.effectZioGlossary.filter (fun r =>
        jsIncludes (jsToLower r.fromCommand) (jsToLower "core") ||
        jsIncludes (jsToLower r.toCommand) (jsToLower "core") ||
        jsIncludes (jsToLower r.note) (jsToLower "core"))).map
          (fun r => r.id)).contains "core-1" = false := by
  refine ⟨by decide, by decide⟩

set_option maxRecDepth 100000 in
/-- C1 (amended): the glossary and cheat-sheet `searchEntries` are the
identity on empty queries and otherwise keep exactly the rows with a
case-insensitive substring match in a textual field (`fromCommand` /
`toCommand` / `note`, resp. `command` / `description` / non-empty `note`);
the effect-zio `searchEffectZioGlossary` keeps exactly the rows of its
fixed table with such a match in a textual field or additionally in the
`category` field. -/
theorem searchEntries_fields_spec :
    (∀ entries, JJGit.searchEntries entries "" = entries) ∧
    (∀ entries q r, q ≠ "" →
      (r ∈ JJGit.searchEntries entries q ↔ r ∈ entries ∧
        ((jsToLower q).data <:+: (jsToLower r.fromCommand).data ∨
         (jsToLower q).data <:+: (jsToLower r.toCommand).data ∨
         (jsToLower q).data <:+: (jsToLower r.note).data))) ∧
    (∀ entries, ZioCats.searchEntries entries "" = entries) ∧
    (∀ entries q r, q ≠ "" →
      (r ∈ ZioCats.searchEntries entries q ↔ r ∈ entries ∧
        ((jsToLower q).data <:+: (jsToLower r.fromCommand).data ∨
         (jsToLower q).data <:+: (jsToLower r.toCommand).data ∨
         (jsToLower q).data <:+: (jsToLower r.note).data))) ∧
    (∀ entries, Tmux.searchEntries entries "" = entries) ∧
    (∀ entries q r, q ≠ "" →
      (r ∈ Tmux.searchEntries entries q ↔ r ∈ entries ∧
        ((jsToLower q).data <:+: (jsToLower r.command).data ∨
         (jsToLower q).data <:+: (jsToLower r.description).data ∨
         (∃ n, r.note = some n ∧ n ≠ "" ∧
           (jsToLower q).data <:+: (jsToLower n).data)))) ∧
    EffectZio.searchEffectZioGlossary "" = EffectZio.effectZioGlossary ∧
    (∀ q r, r ∈ EffectZio.searchEffectZioGlossary q ↔
      r ∈ EffectZio.effectZioGlossary ∧
        ((jsToLower q).data <:+: (jsToLower r.fromCommand).data ∨
         (jsToLower q).data <:+: (jsToLower r.toCommand).data ∨
         (jsToLower q).data <:+: (jsToLower r.category).data ∨
         (jsToLower q).data <:+: (jsToLower r.note).data)) := by
  refine ⟨?_, ?_, ?_, ?_, ?_, ?_, by decide, ?_⟩
  · intro entries
    simp [JJGit.searchEntries]
  · intro entries q r hq
    simp only [JJGit.searchEntries, if_neg hq, List.mem_filter, Bool.or_eq_true,
      jsIncludes_iff, or_assoc]
  · intro entries
    simp [ZioCats.searchEntries]
  · intro entries q r hq
    simp only [ZioCats.searchEntries, if_neg hq, List.mem_filter, Bool.or_eq_true,
      jsIncludes_iff, or_assoc]
  · intro entries
    simp [Tmux.searchEntries]
  · intro entries q r hq
    simp only [Tmux.searchEntries, if_neg hq, List.mem_filter, Bool.or_eq_true,
      jsIncludes_iff, note_pred_iff, or_assoc]
  · intro q r
    simp only [EffectZio.searchEffectZioGlossary, List.mem_filter, Bool.or_eq_true,
      jsIncludes_iff, or_assoc]

/-- Witness for C1 at the jj / git table: searching `"commit"` finds the
row `commits-1` through its `fromCommand` field. -/
theorem searchEntries_fields_spec_witness :
    (⟨"commits-1", "COMMITS", "git add . && git commit -m \"msg\"",
      "jj describe -m \"msg\"", "Changes auto-tracked"⟩ : GlossaryRow) ∈
      JJGit.searchEntries JJGit.jjGitGlossary "commit" :=
  (searchEntries_fields_spec.2.1 JJGit.jjGitGlossary "commit" _ (by decide)).mpr
    ⟨by decide, Or.inl (by decide)⟩

/-- C8: searching is insensitive to raising the query to upper case. -/
theorem searchEntries_case_insensitive :
    (∀ entries q, JJGit.searchEntries entries q =
      JJGit.searchEntries entries (jsToUpper q)) ∧
    (∀ entries q, Tmux.searchEntries entries q =
      Tmux.searchEntries entries (jsToUpper q)) := by
  constructor
  · intro entries q
    by_cases hq : q = ""
    · subst hq
      rw [(jsToUpper_eq_empty_iff "").mpr rfl]
    · have hq2 : jsToUpper q ≠ "" := fun h => hq ((jsToUpper_eq_empty_iff q).mp h)
      simp only [JJGit.searchEntries, if_neg hq, if_neg hq2, jsToLower_jsToUpper]
  · intro entries q
    by_cases hq : q = ""
    · subst hq
      rw [(jsToUpper_eq_empty_iff "").mpr rfl]
    · have hq2 : jsToUpper q ≠ "" := fun h => hq ((jsToUpper_eq_empty_iff q).mp h)
      simp only [Tmux.searchEntries, if_neg hq, if_neg hq2, jsToLower_jsToUpper]

/-- C10: category filtering and searching commute on the jj / git
glossary operations. -/
theorem search_filter_commute :
    ∀ entries c q,
      JJGit.searchEntries (JJGit.filterByCategory entries c) q =
        JJGit.filterByCategory (JJGit.searchEntries entries q) c := by
  intro entries c q
  by_cases hq : q = ""
  · simp only [JJGit.searchEntries, if_pos hq]
  · simp only [JJGit.searchEntries, JJGit.filterByCategory, if_neg hq,
      List.filter_filter]
    exact List.filter_congr (fun r _ => Bool.and_comm _ _)
